import Mathlib

/-!
Shallow embedding of `include/ditto/result.h` (namespace `Ditto`), a manually
tagged union `Result<Ok, Err>` with three specializations (full form,
`Result<Ok, void>`, `Result<void, Err>`) and the `PROPAGATE` statement-expression
macro.  The C++ object state is a discriminant `bool m_is_ok` plus a raw
aligned storage region `m_memory_buffer` into which exactly one payload is
placement-constructed; accessors guard themselves with `DITTO_VERIFY`, a
process-terminating assertion.
-/

namespace Ditto

/-- Contents of the raw storage `m_memory_buffer`.  After the private default
constructor the region holds no object (`uninit`); placement-new of an `Ok`
or an `Err` puts an object of that type in it.  For the `Result<Ok, void>`
specialization the error side is instantiated at `Empty` (no error object can
ever be placed there), and symmetrically for `Result<void, Err>`. -/
inductive Buffer (Ok Err : Type) where
  | uninit
  | okObj (v : Ok)
  | errObj (e : Err)
  deriving DecidableEq

/-- Outcome of an accessor call.  `value` models a normal return,
`fatalAssert` models `DITTO_VERIFY` firing (process termination, the call does
not return), `undefined` models `reinterpret_cast`-reading storage that holds
no object of the requested type (unreachable on well-formed results). -/
inductive AccessResult (α : Type) where
  | value (v : α)
  | fatalAssert
  | undefined
  deriving DecidableEq

/-- The full form `Result<Ok, Err>` (result.h lines 14-95): a discriminant
`m_is_ok` and the raw storage region. -/
structure Result (Ok Err : Type) where
  m_is_ok : Bool
  m_memory_buffer : Buffer Ok Err
  deriving DecidableEq

/-- Implicit constructor `Result(Ok val)` (lines 18-21): placement-new an `Ok`
holding `val` into the buffer, then set `m_is_ok = true`. -/
def Result.fromOk {Ok Err : Type} (val : Ok) : Result Ok Err :=
  ⟨true, .okObj val⟩

/-- Implicit constructor `Result(Err val)` (lines 23-26): placement-new an
`Err` holding `val` into the buffer, then set `m_is_ok = false`. -/
def Result.fromErr {Ok Err : Type} (val : Err) : Result Ok Err :=
  ⟨false, .errObj val⟩

/-- The private default constructor `Result() = default` (line 94): the member
initializer leaves `m_is_ok = false` (line 87) and the storage region holds no
object yet. -/
def Result.defaultCtor {Ok Err : Type} : Result Ok Err :=
  ⟨false, .uninit⟩

/-- Factory `static Result ok(Args... args)` (lines 29-35): default-construct a
staging `Result`, placement-construct the `Ok` payload from the forwarded
constructor arguments (`Ok{std::forward<Args>(args)...}`, modelled by
`construct args`), then set `m_is_ok = true`.  `Args` is the tuple of
constructor arguments (possibly `Unit` for zero arguments). -/
def Result.ok {Ok Err Args : Type} (construct : Args → Ok) (args : Args) :
    Result Ok Err :=
  let result : Result Ok Err := Result.defaultCtor
  { result with m_memory_buffer := .okObj (construct args), m_is_ok := true }

/-- Factory `static Result error(Args... args)` (lines 38-44): symmetric to
`Result.ok`, placement-constructing the `Err` payload and setting
`m_is_ok = false`. -/
def Result.error {Ok Err Args : Type} (construct : Args → Err) (args : Args) :
    Result Ok Err :=
  let result : Result Ok Err := Result.defaultCtor
  { result with m_memory_buffer := .errObj (construct args), m_is_ok := false }

/-- `is_error()` (line 46): `return !m_is_ok;`. -/
def Result.is_error {Ok Err : Type} (r : Result Ok Err) : Bool :=
  !r.m_is_ok

/-- `is_ok()` (line 47): `return m_is_ok;`. -/
def Result.is_ok {Ok Err : Type} (r : Result Ok Err) : Bool :=
  r.m_is_ok

/-- `ok_value() &` (lines 49-52): `DITTO_VERIFY(m_is_ok)` — fatal if the
discriminant is not ok — then reinterpret the buffer as an `Ok` object. -/
def Result.ok_value {Ok Err : Type} (r : Result Ok Err) : AccessResult Ok :=
  if r.m_is_ok then
    match r.m_memory_buffer with
    | .okObj v => .value v
    | _ => .undefined
  else .fatalAssert

/-- `error_value() &` (lines 59-62): `DITTO_VERIFY(!m_is_ok)` — fatal if the
discriminant is ok — then reinterpret the buffer as an `Err` object. -/
def Result.error_value {Ok Err : Type} (r : Result Ok Err) : AccessResult Err :=
  if r.m_is_ok then .fatalAssert
  else
    match r.m_memory_buffer with
    | .errObj e => .value e
    | _ => .undefined

/-- The rvalue-qualified `ok_value() &&` (lines 54-57): same verify and read as
the lvalue form, returning `std::move(...)` of the payload; the caller moving
from the returned reference leaves a valid-but-unspecified `Ok` object (the
moved-from remnant, here the parameter `leftover`) in the buffer, and the
discriminant is not touched. -/
def Result.ok_value_move {Ok Err : Type} (r : Result Ok Err) (leftover : Ok) :
    AccessResult Ok × Result Ok Err :=
  (r.ok_value,
   if r.m_is_ok then { r with m_memory_buffer := .okObj leftover } else r)

/-- The rvalue-qualified `error_value() &&` (lines 64-67), symmetric to
`Result.ok_value_move`. -/
def Result.error_value_move {Ok Err : Type} (r : Result Ok Err)
    (leftover : Err) : AccessResult Err × Result Ok Err :=
  (r.error_value,
   if r.m_is_ok then r else { r with m_memory_buffer := .errObj leftover })

/-- Writing a new payload through the `Ok&` reference returned by
`ok_value() &`: the reference exists only when the verify passed
(`m_is_ok == true`), and assigning through it replaces the payload object
without touching the discriminant. -/
def Result.assignThroughOkRef {Ok Err : Type} (r : Result Ok Err) (v : Ok) :
    Result Ok Err :=
  if r.m_is_ok then { r with m_memory_buffer := .okObj v } else r

/-- Writing a new payload through the `Err&` reference returned by
`error_value() &`, symmetric to `Result.assignThroughOkRef`. -/
def Result.assignThroughErrRef {Ok Err : Type} (r : Result Ok Err) (e : Err) :
    Result Ok Err :=
  if r.m_is_ok then r else { r with m_memory_buffer := .errObj e }

/-- The defaulted copy/move constructor and assignment (lines 79-82,
`Result(const Result&) = default;` etc.): member-wise copy of the `bool` and of
the raw `std::aligned_storage` bytes.  The payload's own copy/move constructor
is NOT invoked; the buffer contents are duplicated bit for bit. -/
def Result.defaultCopy {Ok Err : Type} (r : Result Ok Err) : Result Ok Err :=
  ⟨r.m_is_ok, r.m_memory_buffer⟩

/-- Exactly-one-alternative-live invariant: the discriminant says ok and an
`Ok` object is live in the buffer, or it says error and an `Err` object is
live. -/
def Result.wellFormed {Ok Err : Type} (r : Result Ok Err) : Bool :=
  match r.m_is_ok, r.m_memory_buffer with
  | true, .okObj _ => true
  | false, .errObj _ => true
  | _, _ => false

/-- The compile-time condition of the `static_assert` at lines 90-92: the full
form instantiates (compiles) only when `Ok` and `Err` are distinct types
(`!std::is_same_v<Ok, Err>`). -/
def fullFormInstantiates (Ok Err : Type) : Prop :=
  ¬ (Ok = Err)

/-- The `Result<Ok, void>` specialization (lines 97-152).  The error side
carries no payload, modelled by instantiating the buffer's error side at
`Empty`. -/
structure ResultOkVoid (Ok : Type) where
  m_is_ok : Bool
  m_memory_buffer : Buffer Ok Empty
  deriving DecidableEq

/-- `Result<Ok, void>::error()` (line 114): `return Result{};` — the private
default constructor, whose member initializer leaves `m_is_ok = false` and the
buffer without any object. -/
def ResultOkVoid.error {Ok : Type} : ResultOkVoid Ok :=
  ⟨false, .uninit⟩

/-- `Result<Ok, void>` implicit constructor from `Ok` (lines 101-104). -/
def ResultOkVoid.fromOk {Ok : Type} (val : Ok) : ResultOkVoid Ok :=
  ⟨true, .okObj val⟩

/-- `Result<Ok, void>::is_error()` (line 116). -/
def ResultOkVoid.is_error {Ok : Type} (r : ResultOkVoid Ok) : Bool :=
  !r.m_is_ok

/-- `Result<Ok, void>::is_ok()` (line 117). -/
def ResultOkVoid.is_ok {Ok : Type} (r : ResultOkVoid Ok) : Bool :=
  r.m_is_ok

/-- `Result<Ok, void>::ok_value() &` (lines 119-122): verify then read.  This
specialization has no `error_value` accessor at all, so `ok_value` is the only
way to reach the buffer. -/
def ResultOkVoid.ok_value {Ok : Type} (r : ResultOkVoid Ok) : AccessResult Ok :=
  if r.m_is_ok then
    match r.m_memory_buffer with
    | .okObj v => .value v
    | _ => .undefined
  else .fatalAssert

/-- The `Result<void, Err>` specialization (lines 154-213).  The success side
carries no payload, modelled by instantiating the buffer's ok side at
`Empty`. -/
structure ResultVoidErr (Err : Type) where
  m_is_ok : Bool
  m_memory_buffer : Buffer Empty Err
  deriving DecidableEq

/-- `Result<void, Err>::ok()` (lines 163-167): default-construct a staging
`Result` (buffer left without any object) and set `m_is_ok = true`. -/
def ResultVoidErr.ok {Err : Type} : ResultVoidErr Err :=
  ⟨true, .uninit⟩

/-- `Result<void, Err>` implicit constructor from `Err` (lines 158-161). -/
def ResultVoidErr.fromErr {Err : Type} (val : Err) : ResultVoidErr Err :=
  ⟨false, .errObj val⟩

/-- `Result<void, Err>::is_error()` (line 177). -/
def ResultVoidErr.is_error {Err : Type} (r : ResultVoidErr Err) : Bool :=
  !r.m_is_ok

/-- `Result<void, Err>::is_ok()` (line 178). -/
def ResultVoidErr.is_ok {Err : Type} (r : ResultVoidErr Err) : Bool :=
  r.m_is_ok

/-- `Result<void, Err>::error_value() &` (lines 180-183): verify then read.
This specialization has no `ok_value` accessor at all, so `error_value` is the
only way to reach the buffer. -/
def ResultVoidErr.error_value {Err : Type} (r : ResultVoidErr Err) :
    AccessResult Err :=
  if r.m_is_ok then .fatalAssert
  else
    match r.m_memory_buffer with
    | .errObj e => .value e
    | _ => .undefined

/-- Result of the `PROPAGATE(expression)` statement-expression (lines 215-224)
inside the enclosing function: either the enclosing function returns the
failure payload at once (`return std::move(_result).error_value();`), or the
statement-expression evaluates to the moved success payload for continued use
(`std::move(_result).ok_value();`).  `fatal`/`undefinedRead` relay an accessor's
non-value outcomes (unreachable for well-formed results). -/
inductive PropagateOutcome (Ok Err : Type) where
  | returnError (e : Err)
  | continueWith (v : Ok)
  | fatal
  | undefinedRead
  deriving DecidableEq

/-- The `PROPAGATE` macro body applied to the already-evaluated `_result`: if
`_result.is_error()` the enclosing function returns the moved error payload;
otherwise the expression yields the moved ok payload.  The rvalue-qualified
accessors on the temporary `_result` perform exactly the verified read
modelled by `ok_value`/`error_value` (the temporary is destroyed right
after). -/
def PROPAGATE {Ok Err : Type} (r : Result Ok Err) : PropagateOutcome Ok Err :=
  if r.is_error then
    match r.error_value with
    | .value e => .returnError e
    | .fatalAssert => .fatal
    | .undefined => .undefinedRead
  else
    match r.ok_value with
    | .value v => .continueWith v
    | .fatalAssert => .fatal
    | .undefined => .undefinedRead

/-- `PROPAGATE(expression)` with the expression modelled as a stateful
computation: `auto _result = expression;` evaluates the expression exactly
once (one application of `expr`, whose state change is threaded through),
then runs the macro body on the result. -/
def PROPAGATE_eval {σ Ok Err : Type} (expr : σ → Result Ok Err × σ) (s : σ) :
    PropagateOutcome Ok Err × σ :=
  let p := expr s
  (PROPAGATE p.1, p.2)

/-- Outcome of the enclosing function around a `PROPAGATE` use: a normal
return through its own `Result`-like channel `Except Err α`, or the process
died in a fatal assertion / undefined read. -/
inductive FnOutcome (Err α : Type) where
  | ret (x : Except Err α)
  | fatal
  | undefinedRead

/-- The rest of the enclosing function after a `PROPAGATE` use: on
`returnError` the function returns that failure immediately and the subsequent
statements `rest` are not executed; on `continueWith` the subsequent
statements run with the success payload. -/
def runBody {σ Ok Err α : Type} (out : PropagateOutcome Ok Err) (s : σ)
    (rest : σ → Ok → FnOutcome Err α × σ) : FnOutcome Err α × σ :=
  match out with
  | .returnError e => (.ret (.error e), s)
  | .continueWith v => rest s v
  | .fatal => (.fatal, s)
  | .undefinedRead => (.undefinedRead, s)

/-- The spec's end-to-end scenario error type. -/
inductive DivideError where
  | divideByZero
  deriving DecidableEq

/-- Modelled from the spec: the end-to-end scenario function
`divide(a, b) -> Result<int, DivideError>`, returning `ok(a/b)` when `b != 0`
and `error(DivideByZero)` when `b == 0` (spec section 8; no such function
exists under src/, only the header). -/
def divide (a b : Int) : Result Int DivideError :=
  if b = 0 then Result.fromErr .divideByZero else Result.fromOk (a / b)

/-- A heap of integer cells addressed by natural numbers, used to observe
aliasing between payloads that own an external resource. -/
def Heap : Type :=
  Nat → Int

/-- A payload type that owns a heap cell: its in-buffer byte representation is
just the handle (address) of the cell, like the pointer inside a
`std::string` or a `unique_ptr`.  The payload's own copy constructor would
allocate a fresh cell; a bitwise copy duplicates the handle. -/
structure OwningPayload where
  handle : Nat
  deriving DecidableEq

/-- Reading the resource owned by a payload. -/
def readOwned (h : Heap) (p : OwningPayload) : Int :=
  h p.handle

/-- Mutating the resource owned by a payload. -/
def writeOwned (h : Heap) (p : OwningPayload) (x : Int) : Heap :=
  fun n => if n = p.handle then x else h n

/-- Claim C1: implicitly constructing the full-form `Result` from an `Ok`
value yields `is_ok() == true` with that value readable through `ok_value()`,
and implicitly constructing from an `Err` value yields `is_error() == true`
with that value readable through `error_value()`. -/
theorem implicit_construction_roundtrip (Ok Err : Type) (v : Ok) (e : Err) :
    ((Result.fromOk v : Result Ok Err)).is_ok = true ∧
    ((Result.fromOk v : Result Ok Err)).ok_value = .value v ∧
    ((Result.fromErr e : Result Ok Err)).is_error = true ∧
    ((Result.fromErr e : Result Ok Err)).error_value = .value e :=
  ⟨rfl, rfl, rfl, rfl⟩

/-- Claim C2: `ok_value()` on an error-discriminant `Result` and
`error_value()` on an ok-discriminant `Result` hit the fatal `DITTO_VERIFY`
(no value is returned); conversely, under `is_ok() == true` the assertion
branch of `ok_value()` is unreachable, and symmetrically for `error_value()`
under `is_error() == true`. -/
theorem wrong_alternative_access_is_fatal (Ok Err : Type) (r : Result Ok Err) :
    (r.is_error = true → r.ok_value = .fatalAssert) ∧
    (r.is_ok = true → r.error_value = .fatalAssert) ∧
    (r.is_ok = true → r.ok_value ≠ .fatalAssert) ∧
    (r.is_error = true → r.error_value ≠ .fatalAssert) := by
  obtain ⟨flag, buf⟩ := r
  cases flag <;> cases buf <;>
    simp [Result.is_ok, Result.is_error, Result.ok_value, Result.error_value]

/-- Witness for the claim C2 theorem at concrete instances. -/
theorem wrong_alternative_access_is_fatal_witness :
    ((Result.fromErr true : Result Nat Bool)).ok_value = .fatalAssert ∧
    ((Result.fromOk 3 : Result Nat Bool)).error_value = .fatalAssert ∧
    ((Result.fromOk 3 : Result Nat Bool)).ok_value ≠ .fatalAssert ∧
    ((Result.fromErr true : Result Nat Bool)).error_value
      ≠ .fatalAssert :=
  ⟨(wrong_alternative_access_is_fatal Nat Bool _).1 rfl,
   (wrong_alternative_access_is_fatal Nat Bool _).2.1 rfl,
   (wrong_alternative_access_is_fatal Nat Bool _).2.2.1 rfl,
   (wrong_alternative_access_is_fatal Nat Bool _).2.2.2 rfl⟩

/-- Claim C3 (refuted on the code, code bug): the special members at lines
79-82 are `= default`, i.e. `Result.defaultCopy`: a member-wise copy of the
discriminant and of the raw buffer bytes.  For a payload owning an external
resource the copy carries the byte-identical handle — the payload's own copy
constructor never runs — so the copied payload aliases the original's
resource: mutating the resource through the copy's payload (handle 5) changes
what the original's payload (the same handle 5) observes, from 0 to 42. -/
theorem default_copy_is_bitwise_and_aliases :
    Result.defaultCopy ((Result.fromOk (OwningPayload.mk 5) : Result OwningPayload Bool))
      = (Result.fromOk (OwningPayload.mk 5) : Result OwningPayload Bool) ∧
    (Result.defaultCopy
        ((Result.fromOk (OwningPayload.mk 5) : Result OwningPayload Bool))).ok_value
      = .value (OwningPayload.mk 5) ∧
    ((Result.fromOk (OwningPayload.mk 5) : Result OwningPayload Bool)).ok_value
      = .value (OwningPayload.mk 5) ∧
    readOwned (fun _ => 0) (OwningPayload.mk 5) = 0 ∧
    readOwned (writeOwned (fun _ => 0) (OwningPayload.mk 5) 42)
        (OwningPayload.mk 5)
      = 42 := by
  refine ⟨rfl, rfl, rfl, rfl, ?_⟩
  simp [readOwned, writeOwned]

/-- Claim C4: `PROPAGATE` evaluates its expression exactly once (the final
state is the one after a single evaluation of the expression); when the
result is a failure the enclosing function immediately returns that failure
payload through its own failure channel of the same `Err` type and the
subsequent statements `rest` never run; when it is a success the
statement-expression yields the success payload to the subsequent
statements. -/
theorem propagate_short_circuits (σ Ok Err α : Type)
    (expr : σ → Result Ok Err × σ) (s : σ)
    (h : (expr s).1.wellFormed = true)
    (rest : σ → Ok → FnOutcome Err α × σ) :
    (PROPAGATE_eval expr s).2 = (expr s).2 ∧
    ((expr s).1.is_error = true →
      ∃ e, (expr s).1.error_value = .value e ∧
        (PROPAGATE_eval expr s).1 = .returnError e ∧
        runBody (PROPAGATE_eval expr s).1 (PROPAGATE_eval expr s).2 rest
          = (.ret (.error e), (expr s).2)) ∧
    ((expr s).1.is_ok = true →
      ∃ v, (expr s).1.ok_value = .value v ∧
        (PROPAGATE_eval expr s).1 = .continueWith v ∧
        runBody (PROPAGATE_eval expr s).1 (PROPAGATE_eval expr s).2 rest
          = rest (expr s).2 v) := by
  rcases hp : expr s with ⟨r, s2⟩
  obtain ⟨flag, buf⟩ := r
  cases flag <;> cases buf <;>
    simp_all [PROPAGATE_eval, PROPAGATE, Result.wellFormed, Result.is_ok,
      Result.is_error, Result.ok_value, Result.error_value, runBody]

/-- Witness for the claim C4 theorem: propagating `divide(10, 0)` inside an
enclosing function whose state starts at 0.  The expression is evaluated once
(state 1), the enclosing function returns `DivideByZero` at once, and the
subsequent statement (which would have pushed the state to 101) never runs. -/
theorem propagate_short_circuits_witness :
    (PROPAGATE_eval (fun n : Nat => (divide 10 0, n + 1)) 0).2 = 1 ∧
    (∃ e, (divide 10 0).error_value = AccessResult.value e ∧
      (PROPAGATE_eval (fun n : Nat => (divide 10 0, n + 1)) 0).1
        = PropagateOutcome.returnError e ∧
      runBody (PROPAGATE_eval (fun n : Nat => (divide 10 0, n + 1)) 0).1
        (PROPAGATE_eval (fun n : Nat => (divide 10 0, n + 1)) 0).2
        (fun n v => (FnOutcome.ret (Except.ok v), n + 100))
        = (FnOutcome.ret (Except.error e), 1)) := by
  have h := propagate_short_circuits Nat Int DivideError Int
    (fun n => (divide 10 0, n + 1)) 0 (by decide)
    (fun n v => (FnOutcome.ret (Except.ok v), n + 100))
  exact ⟨h.1, h.2.1 (by decide)⟩

/-- Claim C5: every public constructor establishes that exactly one
alternative is live, and every state-changing public operation (the consuming
accessors and writes through the borrowed payload references; the queries and
the borrowing reads are pure) preserves both the discriminant and the
exactly-one-alternative-live invariant. -/
theorem discriminant_invariant (Ok Err A B : Type) (v : Ok) (e : Err)
    (cok : A → Ok) (a : A) (cerr : B → Err) (b : B)
    (r : Result Ok Err) (h : r.wellFormed = true) (w : Ok) (w2 : Err) :
    ((Result.fromOk v : Result Ok Err)).wellFormed = true ∧
    ((Result.fromErr e : Result Ok Err)).wellFormed = true ∧
    ((Result.ok cok a : Result Ok Err)).wellFormed = true ∧
    ((Result.error cerr b : Result Ok Err)).wellFormed = true ∧
    ((r.ok_value_move w).2.wellFormed = true ∧
      (r.ok_value_move w).2.m_is_ok = r.m_is_ok) ∧
    ((r.error_value_move w2).2.wellFormed = true ∧
      (r.error_value_move w2).2.m_is_ok = r.m_is_ok) ∧
    ((r.assignThroughOkRef w).wellFormed = true ∧
      (r.assignThroughOkRef w).m_is_ok = r.m_is_ok) ∧
    ((r.assignThroughErrRef w2).wellFormed = true ∧
      (r.assignThroughErrRef w2).m_is_ok = r.m_is_ok) := by
  obtain ⟨flag, buf⟩ := r
  cases flag <;> cases buf <;>
    simp_all [Result.wellFormed, Result.fromOk, Result.fromErr, Result.ok,
      Result.error, Result.defaultCtor, Result.ok_value_move,
      Result.error_value_move, Result.assignThroughOkRef,
      Result.assignThroughErrRef, Result.ok_value, Result.error_value]

/-- Witness for the claim C5 theorem: consuming the payload of a concrete
success instance keeps it well formed and keeps its discriminant. -/
theorem discriminant_invariant_witness :
    (((Result.fromOk 2 : Result Nat Bool)).ok_value_move 7).2.wellFormed = true ∧
    (((Result.fromOk 2 : Result Nat Bool)).ok_value_move 7).2.m_is_ok
      = ((Result.fromOk 2 : Result Nat Bool)).m_is_ok :=
  (discriminant_invariant Nat Bool Unit Unit 3 true (fun _ => 1) ()
    (fun _ => false) () (Result.fromOk 2) rfl 7 false).2.2.2.2.1

/-- Claim C6: the factory `Result::ok` forwards its constructor arguments into
an in-place-constructed success payload and marks the discriminant ok; the
factory `Result::error` does the symmetric thing for the failure payload. -/
theorem factories_classify (Ok Err A B : Type) (cok : A → Ok) (a : A)
    (cerr : B → Err) (b : B) :
    ((Result.ok cok a : Result Ok Err)).is_ok = true ∧
    ((Result.ok cok a : Result Ok Err)).ok_value = .value (cok a) ∧
    ((Result.error cerr b : Result Ok Err)).is_error = true ∧
    ((Result.error cerr b : Result Ok Err)).error_value = .value (cerr b) :=
  ⟨rfl, rfl, rfl, rfl⟩

/-- Claim C7: in the Ok-only form the zero-argument failure factory yields
`is_error() == true` with no payload object in the buffer (and the form's
only accessor, `ok_value`, hits the fatal assertion on it); symmetrically, in
the Err-only form the zero-argument success factory yields `is_ok() == true`
with no payload object (and the form's only accessor, `error_value`, hits the
fatal assertion on it). -/
theorem payloadless_factories (Ok Err : Type) :
    ((ResultOkVoid.error : ResultOkVoid Ok)).is_error = true ∧
    ((ResultOkVoid.error : ResultOkVoid Ok)).m_memory_buffer = Buffer.uninit ∧
    ((ResultOkVoid.error : ResultOkVoid Ok)).ok_value = .fatalAssert ∧
    ((ResultVoidErr.ok : ResultVoidErr Err)).is_ok = true ∧
    ((ResultVoidErr.ok : ResultVoidErr Err)).m_memory_buffer = Buffer.uninit ∧
    ((ResultVoidErr.ok : ResultVoidErr Err)).error_value = .fatalAssert :=
  ⟨rfl, rfl, rfl, rfl, rfl, rfl⟩

/-- Claim C8: the `static_assert` condition under which the full form
compiles fails for every instantiation with identical Ok and Err types. -/
theorem full_form_rejects_equal_types :
    ∀ T : Type, ¬ fullFormInstantiates T T :=
  fun _ h => h rfl

/-- Claim C9: on every `Result` of each of the three forms, the pure queries
are complementary: `is_error() == !is_ok()`. -/
theorem queries_complementary (Ok Err : Type) (r : Result Ok Err)
    (ro : ResultOkVoid Ok) (re : ResultVoidErr Err) :
    r.is_error = !r.is_ok ∧ ro.is_error = !ro.is_ok ∧
    re.is_error = !re.is_ok :=
  ⟨rfl, rfl, rfl⟩

/-- Claim C10: the consuming (rvalue-qualified) accessors read the same value
as the borrowing ones and leave the source's discriminant unchanged: `is_ok`
and `is_error` answer the same before and after the consuming access. -/
theorem consuming_access_preserves_discriminant (Ok Err : Type)
    (r : Result Ok Err) (w : Ok) (w2 : Err) :
    ((r.ok_value_move w).2.is_ok = r.is_ok ∧
      (r.ok_value_move w).2.is_error = r.is_error ∧
      (r.ok_value_move w).1 = r.ok_value) ∧
    ((r.error_value_move w2).2.is_ok = r.is_ok ∧
      (r.error_value_move w2).2.is_error = r.is_error ∧
      (r.error_value_move w2).1 = r.error_value) := by
  obtain ⟨flag, buf⟩ := r
  cases flag <;>
    simp [Result.ok_value_move, Result.error_value_move, Result.is_ok,
      Result.is_error]

end Ditto
